import Mathlib

/-!
Shallow embedding of the speech segmentation pipeline of
`speech_to_keyboard.py` (W-Solutions-dev/vibe-ai-keyboard): the noise
calibrator, the frame classifier, the utterance segmenter
(`process_audio`), the recognition post-filter / duplicate guard /
transcript spacer (`recognize_and_type`), and configuration loading
(`load_config`).  Frames are abstracted to identifiers (`Nat`); energies
and timestamps are rationals; text is `List Char`.
-/

namespace VibeKeyboard

/-- Python `collections.deque(maxlen := cap)` append: the new element goes to
the back and the oldest elements are evicted once the buffer exceeds `cap`. -/
def dequeAppend (cap : Nat) (buf : List α) (x : α) : List α :=
  let b := buf ++ [x]
  b.drop (b.length - cap)

/-- `np.mean` over a list of rationals (callers guard against emptiness). -/
def listMean (l : List ℚ) : ℚ := l.sum / l.length

/-- Python `str.rstrip()`: drop trailing whitespace. -/
def pyRstrip (s : List Char) : List Char :=
  (s.reverse.dropWhile Char.isWhitespace).reverse

/-- Python `str.lstrip()`: drop leading whitespace. -/
def pyLstrip (s : List Char) : List Char :=
  s.dropWhile Char.isWhitespace

/-- Python `str.strip()`: drop whitespace on both ends. -/
def pyStrip (s : List Char) : List Char := pyRstrip (pyLstrip s)

/-- The punctuation set `.!?,:;` used by the spacing check in
`recognize_and_type` (line 390 of `speech_to_keyboard.py`). -/
def spacerPunct : List Char := ['.', '!', '?', ',', ':', ';']

/-- The spacing decision of `recognize_and_type` (lines 386-391):
`last_char = self.last_typed_text.rstrip()[-1] if self.last_typed_text.rstrip() else ''`
followed by `if last_char and (last_char in '.!?,:;' or last_char.isalnum())`.
An empty `last_typed_text`, or one that is all whitespace, yields no space. -/
def needsSpace (lastTyped : List Char) : Bool :=
  if lastTyped.isEmpty then false
  else
    match (pyRstrip lastTyped).getLast? with
    | none => false
    | some c => c ∈ spacerPunct || c.isAlphanum

/-- `text_to_type` computation of `recognize_and_type` (lines 385-391):
prepend a single space exactly when `needsSpace` holds of the last typed text. -/
def spacedText (lastTyped candidate : List Char) : List Char :=
  if needsSpace lastTyped then ' ' :: candidate else candidate

/-- The text filter of `recognize_and_type` (line 371):
`if text and text not in self.false_positives and len(text) > self.min_text_length`.
Membership in the false-positive set is exact and case-sensitive. -/
def passesTextFilter (falsePositives : List (List Char)) (minTextLength : Nat)
    (text : List Char) : Bool :=
  !text.isEmpty && !(decide (text ∈ falsePositives)) && decide (minTextLength < text.length)

/-- Segmentation/calibration configuration (the `speech_detection` and
`audio` sections read by `SpeechToKeyboard.__init__` and `process_audio`). -/
structure Config where
  /-- `speech_detection.speech_detection_threshold` (default 1). -/
  speechThreshold : Nat
  /-- `speech_detection.silence_threshold_chunks` (default 30). -/
  silenceThreshold : Nat
  /-- `speech_detection.min_speech_chunks` (default 10). -/
  minSpeechChunks : Nat
  /-- `speech_detection.pre_buffer_chunks` (default 15). -/
  preBufferSize : Nat
  /-- `speech_detection.noise_floor_multiplier` (default 3). -/
  noiseFloorMultiplier : ℚ
  /-- `speech_detection.calibration_duration_seconds` (default 2). -/
  calibrationDurationSeconds : Nat
  /-- `audio.rate` (default 16000). -/
  rate : Nat
  /-- `audio.chunk_size` (default 480). -/
  chunkSize : Nat
deriving DecidableEq

/-- `calibration_chunks_needed = int(calibration_duration * self.RATE / self.CHUNK)`
(line 273): Python `int()` truncation of a nonnegative quotient is floor,
which is `Nat` division here. -/
def calibration_chunks_needed (cfg : Config) : Nat :=
  cfg.calibrationDurationSeconds * cfg.rate / cfg.chunkSize

/-- The mutable state threaded through the `process_audio` loop: the
calibration bookkeeping (`calibration_chunks`, `self.noise_levels`,
`self.energy_threshold`, `self.calibrating`) and the segmenter locals
(`speech_frames`, `silence_count`, `speech_count`, `is_speaking`) together
with the pre-roll ring `self.pre_buffer`.  Frames are identifiers. -/
structure AudioState where
  calibrating : Bool
  calibrationChunks : Nat
  noiseLevels : List ℚ
  energyThreshold : ℚ
  speechFrames : List Nat
  silenceCount : Nat
  speechCount : Nat
  isSpeaking : Bool
  preBuffer : List Nat
deriving DecidableEq

/-- One iteration of the `process_audio` loop body (lines 276-333 of
`speech_to_keyboard.py`) on a dequeued chunk.  `verdict` is the value
`is_speech(audio_chunk)` returns for this chunk (during segmentation the
classifier does not mutate any of the state modelled here, since
`self.calibrating` is already false, so it is passed as an input).  During
the calibration branch the chunk counter advances and, on completion, the
energy threshold is recomputed from `self.noise_levels` when that list is
non-empty (`max(0.01, noise_floor * noise_multiplier)`, line 291); the
classifier is never consulted (`continue`).  Returns the successor state
and the utterance handed to `recognize_and_type`, if any. -/
def process_chunk (cfg : Config) (s : AudioState) (chunk : Nat) (verdict : Bool) :
    AudioState × Option (List Nat) :=
  if s.calibrating then
    let chunks := s.calibrationChunks + 1
    if calibration_chunks_needed cfg ≤ chunks then
      let threshold :=
        if s.noiseLevels.isEmpty then s.energyThreshold
        else max (1/100) (listMean s.noiseLevels * cfg.noiseFloorMultiplier)
      ({ s with calibrating := false, calibrationChunks := chunks,
                energyThreshold := threshold }, none)
    else
      ({ s with calibrationChunks := chunks }, none)
  else
    let pre := if s.isSpeaking then s.preBuffer
               else dequeAppend cfg.preBufferSize s.preBuffer chunk
    if verdict then
      let sc := s.speechCount + 1
      if !s.isSpeaking && cfg.speechThreshold ≤ sc then
        ({ s with speechFrames := s.speechFrames ++ pre ++ [chunk],
                  silenceCount := 0, speechCount := sc, isSpeaking := true,
                  preBuffer := [] }, none)
      else
        ({ s with speechFrames :=
                    if s.isSpeaking then s.speechFrames ++ [chunk] else s.speechFrames,
                  silenceCount := 0, speechCount := sc, preBuffer := pre }, none)
    else
      if s.isSpeaking then
        let sil := s.silenceCount + 1
        let frames := s.speechFrames ++ [chunk]
        if cfg.silenceThreshold ≤ sil then
          ({ s with speechFrames := [], silenceCount := 0, speechCount := 0,
                    isSpeaking := false, preBuffer := pre },
           if cfg.minSpeechChunks ≤ frames.length then some frames else none)
        else
          ({ s with speechFrames := frames, silenceCount := sil, preBuffer := pre },
           none)
      else
        ({ s with speechCount := 0, preBuffer := pre }, none)

/-- Run the `process_audio` loop over a finite list of classified chunks,
collecting every utterance handed to `recognize_and_type` in order. -/
def process_audio (cfg : Config) (s : AudioState) :
    List (Nat × Bool) → AudioState × List (List Nat)
  | [] => (s, [])
  | (c, v) :: rest =>
    let r := process_chunk cfg s c v
    let rest' := process_audio cfg r.1 rest
    (rest'.1, r.2.toList ++ rest'.2)

/-- The default configuration of `speech_to_keyboard.py` (lines 159-189),
restricted to the fields `process_audio` consumes. -/
def defaultSegConfig : Config :=
  { speechThreshold := 1, silenceThreshold := 30, minSpeechChunks := 10,
    preBufferSize := 15, noiseFloorMultiplier := 3,
    calibrationDurationSeconds := 2, rate := 16000, chunkSize := 480 }

/-- The segmenter state right after calibration ends with an empty pre-roll
buffer: Idle, all counters zero, default energy threshold 0.01. -/
def idleState : AudioState :=
  { calibrating := false, calibrationChunks := 66, noiseLevels := [],
    energyThreshold := 1/100, speechFrames := [], silenceCount := 0,
    speechCount := 0, isSpeaking := false, preBuffer := [] }

/-- `n` speech-classified chunks followed by `m` silence-classified chunks,
with distinct frame identifiers. -/
def speechThenSilence (n m : Nat) : List (Nat × Bool) :=
  (List.range n).map (fun i => (i, true)) ++
    (List.range m).map (fun i => (n + i, false))

/-- The state read and written by `is_speech` (lines 244-263):
`self.calibrating`, `self.noise_levels` (a deque of capacity 50, line 112)
and `self.energy_threshold`. -/
structure ClassifierState where
  calibrating : Bool
  noiseLevels : List ℚ
  energyThreshold : ℚ
deriving DecidableEq

/-- `is_speech` (lines 244-263 of `speech_to_keyboard.py`).  `energy` is the
value `calculate_energy` returns for the chunk; `vadVerdict` abstracts the
call `self.vad.is_speech(audio_chunk, self.RATE)`: `some v` when the
detector returns `v`, `none` when it raises.  While calibrating the energy
is appended to the noise profile and the verdict is `false`; below the
scaled threshold the verdict is `false` for every possible detector
behaviour; otherwise the detector's verdict is returned, with a raised
exception caught by the bare `except` and turned into `false`. -/
def is_speech (energyMultiplier : ℚ) (st : ClassifierState) (energy : ℚ)
    (vadVerdict : Option Bool) : Bool × ClassifierState :=
  if st.calibrating then
    (false, { st with noiseLevels := dequeAppend 50 st.noiseLevels energy })
  else if energy < st.energyThreshold * energyMultiplier then
    (false, st)
  else
    match vadVerdict with
    | some v => (v, st)
    | none => (false, st)

/-- The state read and written by `recognize_and_type` (lines 340-408):
the duplicate guard `self.last_text` / `self.last_text_time` and the
spacing state `self.last_typed_text`. -/
structure RecState where
  lastText : List Char
  lastTextTime : ℚ
  lastTypedText : List Char
deriving DecidableEq

/-- Outcome of the `self.model.transcribe(...)` call: either the returned
`result['text']` or a raised exception. -/
inductive TranscribeOutcome where
  | ok (text : List Char)
  | raised
deriving DecidableEq

/-- `self.duplicate_threshold = 2.0` seconds (line 121). -/
def duplicateThreshold : ℚ := 2

/-- `recognize_and_type` (lines 340-408 of `speech_to_keyboard.py`),
abstracted over the transcription call.  `tooQuiet` is the result of the
peak-amplitude check `np.max(np.abs(audio_np)) < 0.01` (line 349), which
returns before transcribing; `tr` is the transcription outcome and `now`
the wall-clock time `time.time()` observed at the duplicate check.  Returns
the text handed to `self.keyboard_controller.type` (with its prepended
space, if any) and the successor state; every rejection path returns
`none` and leaves the state unchanged, exactly as in the source, where
`self.last_text`, `self.last_text_time` and `self.last_typed_text` are only
assigned on the acceptance path. -/
def recognize_and_type (falsePositives : List (List Char)) (minTextLength : Nat)
    (st : RecState) (tooQuiet : Bool) (tr : TranscribeOutcome) (now : ℚ) :
    Option (List Char) × RecState :=
  if tooQuiet then (none, st)
  else
    match tr with
    | TranscribeOutcome.raised => (none, st)
    | TranscribeOutcome.ok raw =>
      let text := pyStrip raw
      if passesTextFilter falsePositives minTextLength text then
        if text = st.lastText ∧ now - st.lastTextTime < duplicateThreshold then
          (none, st)
        else
          (some (spacedText st.lastTypedText text),
           { lastText := text, lastTextTime := now, lastTypedText := text })
      else
        (none, st)

/-- JSON values, as produced by `json.load`. -/
inductive JValue where
  | num (q : ℚ)
  | str (s : List Char)
  | bool (b : Bool)
  | null
  | arr (elems : List JValue)
  | obj (fields : List (List Char × JValue))

/-- Dictionary key access `j[k]` (as `Option`). -/
def JValue.lookup : JValue → List Char → Option JValue
  | JValue.obj fields, k => List.lookup k fields
  | _, _ => none

/-- The `default_config` dictionary of `load_config`
(lines 159-189 of `speech_to_keyboard.py`). -/
def defaultConfig : JValue :=
  JValue.obj
    [ ("audio".toList, JValue.obj
        [ ("rate".toList, JValue.num 16000),
          ("chunk_size".toList, JValue.num 480),
          ("channels".toList, JValue.num 1) ]),
      ("speech_detection".toList, JValue.obj
        [ ("vad_aggressiveness".toList, JValue.num 3),
          ("pre_buffer_chunks".toList, JValue.num 15),
          ("silence_threshold_chunks".toList, JValue.num 30),
          ("min_speech_chunks".toList, JValue.num 10),
          ("energy_threshold_multiplier".toList, JValue.num (3/2)),
          ("noise_floor_multiplier".toList, JValue.num 3),
          ("speech_detection_threshold".toList, JValue.num 1),
          ("calibration_duration_seconds".toList, JValue.num 2) ]),
      ("whisper".toList, JValue.obj
        [ ("model_size".toList, JValue.str "base".toList),
          ("language".toList, JValue.str "en".toList),
          ("temperature".toList, JValue.num (1/10)),
          ("no_speech_threshold".toList, JValue.num (3/5)),
          ("logprob_threshold".toList, JValue.num (-1)) ]),
      ("filtering".toList, JValue.obj
        [ ("min_text_length".toList, JValue.num 2),
          ("false_positives".toList, JValue.arr
            [ JValue.str "".toList, JValue.str ".".toList,
              JValue.str "!".toList, JValue.str "?".toList,
              JValue.str "Thank you.".toList, JValue.str "Thanks.".toList,
              JValue.str "thank you".toList,
              JValue.str "Thanks for watching!".toList,
              JValue.str "you".toList, JValue.str "the".toList,
              JValue.str "uh".toList, JValue.str "um".toList ]) ]) ]

/-- What the loader can observe of the configuration file: it does not
exist, it exists but `json.load` raises, or it parses to a JSON value. -/
inductive ConfigFile where
  | absent
  | malformed
  | parsed (j : JValue)

/-- `load_config` (lines 157-200 of `speech_to_keyboard.py`): a missing
file or a parse error falls back to the complete `default_config`; a
successfully parsed file is returned verbatim, with no merging against the
defaults. -/
def load_config : ConfigFile → JValue
  | ConfigFile.absent => defaultConfig
  | ConfigFile.malformed => defaultConfig
  | ConfigFile.parsed j => j

/-! ### Helper lemmas -/

/-- `process_chunk` only ever hands over an utterance of at least
`min_speech_chunks` frames: the finalization branch guards the hand-off
with `len(speech_frames) >= self.min_speech_chunks`. -/
theorem process_chunk_emits_ge (cfg : Config) (s : AudioState) (c : Nat) (v : Bool)
    (u : List Nat) (h : (process_chunk cfg s c v).2 = some u) :
    cfg.minSpeechChunks ≤ u.length := by
  unfold process_chunk at h
  repeat' split at h <;> try simp_all
  all_goals (obtain ⟨h1, h2⟩ := h; subst h2; simpa using h1)

/-- Once `self.calibrating` is false, no branch of the loop body sets it
back to true. -/
theorem process_chunk_stays_uncalibrating (cfg : Config) (s : AudioState) (c : Nat)
    (v : Bool) (h : s.calibrating = false) :
    (process_chunk cfg s c v).1.calibrating = false := by
  unfold process_chunk
  repeat' split
  any_goals simp_all
  all_goals (repeat' split)
  all_goals simp_all

/-- Iterated form of `process_chunk_stays_uncalibrating`. -/
theorem process_audio_stays_uncalibrating (cfg : Config)
    (inputs : List (Nat × Bool)) :
    ∀ s : AudioState, s.calibrating = false →
      (process_audio cfg s inputs).1.calibrating = false := by
  induction inputs with
  | nil => intro s h; exact h
  | cons p rest ih =>
    intro s h
    obtain ⟨c, v⟩ := p
    exact ih _ (process_chunk_stays_uncalibrating cfg s c v h)

/-! ### C1 -/

/-- C1: the claimed scenario (3 + 9 speech-classified frames with
`speech_detection_threshold = 1`, then 30 silence-classified frames, from
Idle with an empty pre-roll buffer) does NOT produce a 42-frame utterance:
the onset chunk is pushed into the pre-roll buffer before classification
(line 298) and then both drained into `speech_frames` (line 306) and
appended again (line 311), so the submitted utterance has 43 frames. -/
theorem c1_scenario_counterexample :
    ¬ ((process_audio defaultSegConfig idleState (speechThenSilence 12 30)).2.map
        List.length = [42]) := by decide

/-- C1 (amended): the scenario yields exactly one finalized utterance
submitted for transcription, and that utterance contains exactly 43
frames — the 42 fed frames plus a duplicate of the onset frame, which
enters once from the drained pre-roll buffer and once as the first
appended speech frame. -/
theorem c1_scenario_amended :
    (process_audio defaultSegConfig idleState (speechThenSilence 12 30)).2.map
      List.length = [43] := by decide

/-! ### C2 -/

/-- C2: feeding 5 speech-classified frames then 30 silence-classified
frames from Idle submits ONE utterance (of 36 frames), not zero: the
minimum-length guard (line 321) compares `min_speech_chunks` against
`len(speech_frames)`, which already contains the 30 trailing silence
frames and the duplicated onset frame, so 36 ≥ 10 passes even though only
5 speech chunks were observed — contradicting the code's own comment
"Only process if we had enough speech chunks". -/
theorem c2_scenario_eval :
    (process_audio defaultSegConfig idleState (speechThenSilence 5 30)).2.map
      List.length = [36] := by decide

/-! ### C9 -/

/-- C9: in `load_config` of `speech_to_keyboard.py` a successfully parsed
config file is returned verbatim, so a missing key does NOT resolve to its
default value: parsing the empty object yields a configuration in which
the key `audio` is absent, while the default configuration defines it. -/
theorem c9_missing_key_counterexample :
    load_config (ConfigFile.parsed (JValue.obj [])) = JValue.obj [] ∧
    (load_config (ConfigFile.parsed (JValue.obj []))).lookup "audio".toList = none ∧
    (defaultConfig.lookup "audio".toList).isSome = true :=
  ⟨rfl, rfl, rfl⟩

/-- C9 (amended): the loader itself never fails: a missing config file or
a malformed (unparseable) one makes the entire configuration fall back to
the full default set; a parseable file is returned verbatim, so
unrecognized keys are carried along unused and missing keys are NOT
individually filled in from the defaults (per-key merging exists only in
the enhanced variant's `_merge_configs`). -/
theorem c9_loader_fallback :
    load_config ConfigFile.absent = defaultConfig ∧
    load_config ConfigFile.malformed = defaultConfig ∧
    ∀ j : JValue, load_config (ConfigFile.parsed j) = j :=
  ⟨rfl, rfl, fun _ => rfl⟩

/-! ### C10 -/

/-- C10: when the transcription call raises, `recognize_and_type` catches
the exception (the whole body is inside `try`), injects no text, and
leaves the duplicate guard (`last_text`, `last_text_time`) and the spacing
state (`last_typed_text`) exactly as they were: every assignment to them
comes after the `transcribe` call on the acceptance path. -/
theorem c10_transcribe_error_no_effect (fps : List (List Char)) (minLen : Nat)
    (st : RecState) (tooQuiet : Bool) (now : ℚ) :
    recognize_and_type fps minLen st tooQuiet TranscribeOutcome.raised now =
      (none, st) := by
  cases tooQuiet <;> rfl

/-! ### C6 -/

/-- C6: the classifier `is_speech` returns false unconditionally while
calibrating, appending the frame's energy to the noise profile; returns
false whenever the energy is strictly below `energy_threshold *
energy_threshold_multiplier` for EVERY possible behaviour of the secondary
detector (so the detector is never consulted); otherwise returns the
secondary voice-activity detector's verdict; and a raised exception from
the detector yields false instead of propagating. -/
theorem c6_classifier_fail_closed (mult : ℚ) (st : ClassifierState) (energy : ℚ)
    (vad : Option Bool) :
    (st.calibrating = true →
      is_speech mult st energy vad =
        (false, { st with noiseLevels := dequeAppend 50 st.noiseLevels energy })) ∧
    (st.calibrating = false → energy < st.energyThreshold * mult →
      is_speech mult st energy vad = (false, st)) ∧
    (st.calibrating = false → ¬ energy < st.energyThreshold * mult →
      (∀ v : Bool, is_speech mult st energy (some v) = (v, st)) ∧
      is_speech mult st energy none = (false, st)) := by
  exact ⟨fun hc => by simp [is_speech, hc],
         fun hc hlt => by simp [is_speech, hc, hlt],
         fun hc hge => ⟨fun v => by simp [is_speech, hc, hge],
                        by simp [is_speech, hc, hge]⟩⟩

/-- Witness for C6, exercising all four branches at concrete inputs:
energy 1/2 while calibrating; energy 0 below the scaled threshold
(1/100)·(3/2); energy 1 above it with the detector answering true; and
energy 1 with a raised detector exception. -/
theorem c6_classifier_fail_closed_witness :
    is_speech (3/2) ⟨true, [], 1/100⟩ (1/2) (some true) =
      (false, ⟨true, [1/2], 1/100⟩) ∧
    is_speech (3/2) ⟨false, [], 1/100⟩ 0 (some true) = (false, ⟨false, [], 1/100⟩) ∧
    is_speech (3/2) ⟨false, [], 1/100⟩ 1 (some true) = (true, ⟨false, [], 1/100⟩) ∧
    is_speech (3/2) ⟨false, [], 1/100⟩ 1 none = (false, ⟨false, [], 1/100⟩) := by
  refine ⟨?_, ?_, ?_, ?_⟩
  · exact (c6_classifier_fail_closed (3/2) ⟨true, [], 1/100⟩ (1/2) (some true)).1 rfl
  · exact (c6_classifier_fail_closed (3/2) ⟨false, [], 1/100⟩ 0 (some true)).2.1 rfl
      (by norm_num)
  · exact ((c6_classifier_fail_closed (3/2) ⟨false, [], 1/100⟩ 1 (some true)).2.2 rfl
      (by norm_num)).1 true
  · exact ((c6_classifier_fail_closed (3/2) ⟨false, [], 1/100⟩ 1 none).2.2 rfl
      (by norm_num)).2

/-! ### C4 -/

/-- The spacing decision depends only on the last character left after
stripping trailing whitespace (the empty-string guard of the source is
subsumed: `rstrip` of the empty string has no last character). -/
theorem needsSpace_eq_getLast (lastTyped : List Char) :
    needsSpace lastTyped =
      match (pyRstrip lastTyped).getLast? with
      | none => false
      | some c => c ∈ spacerPunct || c.isAlphanum := by
  unfold needsSpace
  cases h : lastTyped.isEmpty
  · simp [h]
  · rw [List.isEmpty_iff.mp h]
    rfl

/-- C4: the spacer never prepends a space when `last_typed_text` is empty;
when its last non-whitespace character exists and is alphanumeric or one
of `.!?,:;`, exactly one space is prepended to the candidate; otherwise
(no non-whitespace character, or a character outside both classes) the
candidate is injected unmodified; and on every acceptance path of
`recognize_and_type` the injected text is `spacedText` of the candidate
while `last_typed_text` is set to the unspaced candidate. -/
theorem c4_spacing_law (lastTyped candidate : List Char) :
    (lastTyped = [] → spacedText lastTyped candidate = candidate) ∧
    ((pyRstrip lastTyped).getLast? = none →
      spacedText lastTyped candidate = candidate) ∧
    (∀ c : Char, (pyRstrip lastTyped).getLast? = some c →
      (c.isAlphanum = true ∨ c ∈ spacerPunct) →
      spacedText lastTyped candidate = ' ' :: candidate) ∧
    (∀ c : Char, (pyRstrip lastTyped).getLast? = some c →
      c.isAlphanum = false → c ∉ spacerPunct →
      spacedText lastTyped candidate = candidate) ∧
    (∀ (fps : List (List Char)) (minLen : Nat) (st : RecState) (raw : List Char)
        (now : ℚ) (out : List Char),
      (recognize_and_type fps minLen st false (TranscribeOutcome.ok raw) now).1 =
        some out →
      out = spacedText st.lastTypedText (pyStrip raw) ∧
      (recognize_and_type fps minLen st false (TranscribeOutcome.ok raw) now).2.lastTypedText =
        pyStrip raw) := by
  refine ⟨fun h => ?_, fun h => ?_, fun c hc hclass => ?_, fun c hc h1 h2 => ?_,
         fun fps minLen st raw now out hsome => ?_⟩
  · subst h; rfl
  · simp [spacedText, needsSpace_eq_getLast, h]
  · rcases hclass with h | h <;> simp [spacedText, needsSpace_eq_getLast, hc, h]
  · simp [spacedText, needsSpace_eq_getLast, hc, h1, h2]
  · revert hsome
    unfold recognize_and_type
    by_cases hpass : passesTextFilter fps minLen (pyStrip raw) = true
    · by_cases hdup : pyStrip raw = st.lastText ∧
          now - st.lastTextTime < duplicateThreshold
      · simp [hpass, hdup]
      · simp only [hpass, hdup]
        simp
        intro h
        exact h.symm
    · simp [hpass]

/-- Witness for C4: last typed text `"hi"` ends in the alphanumeric `i`,
so `"there"` gets exactly one leading space; last typed text `"%"` ends in
a character that is neither alphanumeric nor spacer punctuation, so the
candidate is unchanged; and a concrete accepted transcription sets
`last_typed_text` to the stripped candidate. -/
theorem c4_spacing_law_witness :
    spacedText "hi".toList "there".toList = ' ' :: "there".toList ∧
    spacedText "%".toList "there".toList = "there".toList ∧
    spacedText [] "there".toList = "there".toList ∧
    ("ok!?".toList = spacedText ([] : List Char) (pyStrip " ok!? ".toList) ∧
      (recognize_and_type [] 0 ⟨[], 0, []⟩ false
        (TranscribeOutcome.ok " ok!? ".toList) 7).2.lastTypedText =
        pyStrip " ok!? ".toList) := by
  refine ⟨?_, ?_, ?_, ?_⟩
  · exact (c4_spacing_law "hi".toList "there".toList).2.2.1 'i' (by decide)
      (Or.inl (by decide))
  · exact (c4_spacing_law "%".toList "there".toList).2.2.2.1 '%' (by decide)
      (by decide) (by decide)
  · exact (c4_spacing_law [] "there".toList).1 rfl
  · exact (c4_spacing_law [] "there".toList).2.2.2.2 [] 0 ⟨[], 0, []⟩
      " ok!? ".toList 7 "ok!?".toList (by decide)

/-! ### C8 -/

/-- C8: the post-filter of `recognize_and_type` fails exactly when the
whitespace-trimmed transcript is empty, or is a member of the configured
false-positive set (exact, case-sensitive list membership), or has length
at most `min_text_length`; every other trimmed transcript passes this
stage.  Whenever the filter fails, `recognize_and_type` injects nothing
and leaves its state untouched. -/
theorem c8_text_filter_characterization (fps : List (List Char)) (minLen : Nat)
    (raw : List Char) :
    (passesTextFilter fps minLen (pyStrip raw) = false ↔
      (pyStrip raw = [] ∨ pyStrip raw ∈ fps ∨ (pyStrip raw).length ≤ minLen)) ∧
    (passesTextFilter fps minLen (pyStrip raw) = false →
      ∀ (st : RecState) (now : ℚ),
        recognize_and_type fps minLen st false (TranscribeOutcome.ok raw) now =
          (none, st)) := by
  constructor
  · simp [passesTextFilter, List.isEmpty_iff, not_lt, or_assoc]
    tauto
  · intro h st now
    unfold recognize_and_type
    simp [h]

/-- Witness for C8: with the default false-positive list entry `"um"` and
`min_text_length = 2`, the transcript `" um "` trims to `"um"`, is
rejected by set membership, and produces no injection; the transcript
`"no"` trims to itself and is rejected by the length bound `2 ≤ 2`. -/
theorem c8_text_filter_characterization_witness :
    (pyStrip " um ".toList = [] ∨ pyStrip " um ".toList ∈ ["um".toList] ∨
      (pyStrip " um ".toList).length ≤ 2) ∧
    recognize_and_type ["um".toList] 2 ⟨[], 0, []⟩ false
      (TranscribeOutcome.ok " um ".toList) 5 = (none, ⟨[], 0, []⟩) ∧
    (passesTextFilter [] 2 (pyStrip "no".toList) = false) := by
  refine ⟨?_, ?_, ?_⟩
  · exact (c8_text_filter_characterization ["um".toList] 2 " um ".toList).1.mp
      (by decide)
  · exact (c8_text_filter_characterization ["um".toList] 2 " um ".toList).2
      (by decide) ⟨[], 0, []⟩ 5
  · exact (c8_text_filter_characterization [] 2 "no".toList).1.mpr
      (Or.inr (Or.inr (by decide)))

/-! ### C5 -/

/-- C5: for a transcript that passes the text filters and is accepted at
time `t1` (updating the guard to that text and timestamp), an identical
transcript arriving at `t2` with `t2 - t1 < duplicate_threshold` (2.0 s)
is rejected with the whole state (guard and spacing) unchanged, while one
arriving with `t2 - t1 ≥ duplicate_threshold` is accepted and updates the
guard to the new timestamp. -/
theorem c5_duplicate_suppression (fps : List (List Char)) (minLen : Nat)
    (st0 : RecState) (raw : List Char) (t1 t2 : ℚ)
    (hpass : passesTextFilter fps minLen (pyStrip raw) = true)
    (hacc : (recognize_and_type fps minLen st0 false
      (TranscribeOutcome.ok raw) t1).1.isSome = true) :
    (recognize_and_type fps minLen st0 false (TranscribeOutcome.ok raw) t1).2 =
      ⟨pyStrip raw, t1, pyStrip raw⟩ ∧
    (t2 - t1 < duplicateThreshold →
      recognize_and_type fps minLen
          (recognize_and_type fps minLen st0 false (TranscribeOutcome.ok raw) t1).2
          false (TranscribeOutcome.ok raw) t2 =
        (none,
         (recognize_and_type fps minLen st0 false (TranscribeOutcome.ok raw) t1).2)) ∧
    (duplicateThreshold ≤ t2 - t1 →
      recognize_and_type fps minLen
          (recognize_and_type fps minLen st0 false (TranscribeOutcome.ok raw) t1).2
          false (TranscribeOutcome.ok raw) t2 =
        (some (spacedText (pyStrip raw) (pyStrip raw)),
         ⟨pyStrip raw, t2, pyStrip raw⟩)) := by
  have hr : recognize_and_type fps minLen st0 false (TranscribeOutcome.ok raw) t1 =
      (some (spacedText st0.lastTypedText (pyStrip raw)),
       ⟨pyStrip raw, t1, pyStrip raw⟩) := by
    by_cases hdup : pyStrip raw = st0.lastText ∧
        t1 - st0.lastTextTime < duplicateThreshold
    · exfalso
      unfold recognize_and_type at hacc
      simp [hpass, hdup] at hacc
    · unfold recognize_and_type
      simp [hpass, hdup]
  rw [hr]
  refine ⟨rfl, fun hlt => ?_, fun hge => ?_⟩
  · unfold recognize_and_type
    simp [hpass, hlt]
  · unfold recognize_and_type
    have hnd : ¬(pyStrip raw = pyStrip raw ∧ t2 - t1 < duplicateThreshold) := by
      rw [not_and]
      intro _
      exact not_lt.mpr hge
    simp only [hpass]
    simp [hnd, not_lt.mpr hge]

/-- Witness for C5: transcript `"hi"` accepted at time 10; the identical
transcript at time 11 (elapsed 1 < 2) is rejected with the state
unchanged, and at time 12 (elapsed 2 ≥ 2) is accepted with the guard
timestamp updated. -/
theorem c5_duplicate_suppression_witness :
    recognize_and_type [] 0 ⟨pyStrip "hi".toList, 10, pyStrip "hi".toList⟩ false
        (TranscribeOutcome.ok "hi".toList) 11 =
      (none, ⟨pyStrip "hi".toList, 10, pyStrip "hi".toList⟩) ∧
    recognize_and_type [] 0 ⟨pyStrip "hi".toList, 10, pyStrip "hi".toList⟩ false
        (TranscribeOutcome.ok "hi".toList) 12 =
      (some (spacedText (pyStrip "hi".toList) (pyStrip "hi".toList)),
       ⟨pyStrip "hi".toList, 12, pyStrip "hi".toList⟩) := by
  have h := c5_duplicate_suppression [] 0 ⟨[], 0, []⟩ "hi".toList 10 11
    (by decide) (by decide)
  have h' := c5_duplicate_suppression [] 0 ⟨[], 0, []⟩ "hi".toList 10 12
    (by decide) (by decide)
  constructor
  · have hx := h.2.1 (by norm_num [duplicateThreshold])
    rwa [h.1] at hx
  · have hx := h'.2.2 (by norm_num [duplicateThreshold])
    rwa [h'.1] at hx

/-! ### C7 -/

/-- C7: on the chunk that completes the calibration window of
`int(calibration_duration_seconds * rate / chunk_size)` frames (floor
division), the energy threshold becomes
`max(0.01, mean(noise_levels) * noise_floor_multiplier)` when the noise
profile is non-empty and keeps its pre-calibration default otherwise; the
calibrating flag becomes false, no utterance is emitted by this chunk, and
the flag stays false over every subsequent input sequence. -/
theorem c7_calibration_completion (cfg : Config) (s : AudioState) (chunk : Nat)
    (verdict : Bool) (hc : s.calibrating = true)
    (hdone : calibration_chunks_needed cfg ≤ s.calibrationChunks + 1) :
    (process_chunk cfg s chunk verdict).1.calibrating = false ∧
    (s.noiseLevels ≠ [] →
      (process_chunk cfg s chunk verdict).1.energyThreshold =
        max (1/100) (listMean s.noiseLevels * cfg.noiseFloorMultiplier)) ∧
    (s.noiseLevels = [] →
      (process_chunk cfg s chunk verdict).1.energyThreshold = s.energyThreshold) ∧
    (∀ inputs : List (Nat × Bool),
      (process_audio cfg (process_chunk cfg s chunk verdict).1 inputs).1.calibrating
        = false) ∧
    (process_chunk cfg s chunk verdict).2 = none := by
  have hkey : process_chunk cfg s chunk verdict =
      ({ s with calibrating := false, calibrationChunks := s.calibrationChunks + 1,
                energyThreshold :=
                  if s.noiseLevels.isEmpty then s.energyThreshold
                  else max (1/100) (listMean s.noiseLevels * cfg.noiseFloorMultiplier) },
       none) := by
    unfold process_chunk
    simp [hc, hdone]
  refine ⟨by simp [hkey], fun hne => ?_, fun he => ?_, fun inputs => ?_, by simp [hkey]⟩
  · simp [hkey, hne]
  · simp [hkey, he]
  · exact process_audio_stays_uncalibrating cfg inputs _ (by simp [hkey])

/-- Witness for C7 at the default configuration (window
`2 * 16000 / 480 = 66`): completing the window with an empty noise profile
keeps threshold 0.01; completing it with profile `[1/50]` sets threshold
`max(0.01, (1/50)·3)`; the flag is false and remains false after a further
frame. -/
theorem c7_calibration_completion_witness :
    (process_chunk defaultSegConfig
      ⟨true, 65, [], 1/100, [], 0, 0, false, []⟩ 0 false).1.calibrating = false ∧
    (process_chunk defaultSegConfig
      ⟨true, 65, [], 1/100, [], 0, 0, false, []⟩ 0 false).1.energyThreshold = 1/100 ∧
    (process_chunk defaultSegConfig
      ⟨true, 65, [1/50], 1/100, [], 0, 0, false, []⟩ 0 false).1.energyThreshold =
      max (1/100) (listMean [1/50] * defaultSegConfig.noiseFloorMultiplier) ∧
    (process_audio defaultSegConfig
      (process_chunk defaultSegConfig
        ⟨true, 65, [], 1/100, [], 0, 0, false, []⟩ 0 false).1
      [(1, true)]).1.calibrating = false := by
  have h := c7_calibration_completion defaultSegConfig
    ⟨true, 65, [], 1/100, [], 0, 0, false, []⟩ 0 false rfl (by decide)
  have h' := c7_calibration_completion defaultSegConfig
    ⟨true, 65, [1/50], 1/100, [], 0, 0, false, []⟩ 0 false rfl (by decide)
  exact ⟨h.1, h.2.2.1 rfl, h'.2.1 (by decide), h.2.2.2.1 [(1, true)]⟩

/-! ### C3 -/

/-- Every utterance collected over a whole run satisfies the
minimum-length bound. -/
theorem process_audio_outputs_ge (cfg : Config) (inputs : List (Nat × Bool)) :
    ∀ (s : AudioState) (u : List Nat), u ∈ (process_audio cfg s inputs).2 →
      cfg.minSpeechChunks ≤ u.length := by
  induction inputs with
  | nil => intro s u hu; simp [process_audio] at hu
  | cons p rest ih =>
    intro s u hu
    obtain ⟨c, v⟩ := p
    simp only [process_audio, List.mem_append] at hu
    rcases hu with hu | hu
    · have hemit : (process_chunk cfg s c v).2 = some u := by
        rcases h2 : (process_chunk cfg s c v).2 with _ | u'
        · rw [h2] at hu; simp at hu
        · rw [h2] at hu; simp at hu; rw [hu]
      exact process_chunk_emits_ge cfg s c v u hemit
    · exact ih _ u hu

/-- A silence-classified chunk consumed in the Idle state only resets the
speech counter and feeds the pre-roll ring. -/
theorem process_chunk_silence_idle (cfg : Config) (s : AudioState) (c : Nat)
    (hc : s.calibrating = false) (hs : s.isSpeaking = false) :
    process_chunk cfg s c false =
      ({ s with speechCount := 0,
                preBuffer := dequeAppend cfg.preBufferSize s.preBuffer c }, none) := by
  unfold process_chunk
  simp [hc, hs]

/-- Feeding only silence-classified chunks to an Idle segmenter never
emits an utterance. -/
theorem idle_silence_no_output (cfg : Config) (sil : List (Nat × Bool)) :
    ∀ s : AudioState, (∀ p ∈ sil, p.2 = false) →
      s.calibrating = false → s.isSpeaking = false →
      (process_audio cfg s sil).2 = [] := by
  induction sil with
  | nil => intro s _ _ _; rfl
  | cons p rest ih =>
    obtain ⟨c, v⟩ := p
    intro s hall hc hs
    have hv : v = false := hall (c, v) (by simp)
    subst hv
    simp only [process_audio]
    rw [process_chunk_silence_idle cfg s c hc hs]
    simpa using ih _ (fun p hp => hall p (by simp [hp])) (by simp [hc]) (by simp [hs])

/-- A Speaking segmenter fed a run of silence-classified chunks long
enough to reach the silence threshold finalizes exactly one utterance:
the current buffer extended by the first
`silence_threshold - silence_count` silence chunks; nothing further is
emitted by the remaining silence. -/
theorem speaking_silence_run (cfg : Config) (sil : List (Nat × Bool)) :
    ∀ s : AudioState, (∀ p ∈ sil, p.2 = false) →
      s.calibrating = false → s.isSpeaking = true →
      s.silenceCount < cfg.silenceThreshold →
      cfg.silenceThreshold ≤ s.silenceCount + sil.length →
      cfg.minSpeechChunks ≤
        s.speechFrames.length + (cfg.silenceThreshold - s.silenceCount) →
      (process_audio cfg s sil).2 =
        [s.speechFrames ++
          (sil.take (cfg.silenceThreshold - s.silenceCount)).map Prod.fst] := by
  induction sil with
  | nil =>
    intro s _ _ _ hlt hle _
    simp at hle
    omega
  | cons p rest ih =>
    obtain ⟨c, v⟩ := p
    intro s hall hc hs hlt hle hmin
    have hv : v = false := hall (c, v) (by simp)
    subst hv
    by_cases hfin : cfg.silenceThreshold ≤ s.silenceCount + 1
    · have hT1 : cfg.silenceThreshold - s.silenceCount = 1 := by omega
      have hmin' : cfg.minSpeechChunks ≤ s.speechFrames.length + 1 := by omega
      have hstep : process_chunk cfg s c false =
          ({ s with speechFrames := [], silenceCount := 0, speechCount := 0,
                    isSpeaking := false, preBuffer := s.preBuffer },
           some (s.speechFrames ++ [c])) := by
        unfold process_chunk
        simp [hc, hs, hfin, hmin']
      simp only [process_audio]
      rw [hstep]
      have hrest := idle_silence_no_output cfg rest
        ({ s with speechFrames := [], silenceCount := 0, speechCount := 0,
                  isSpeaking := false, preBuffer := s.preBuffer })
        (fun p hp => hall p (by simp [hp])) (by simp [hc]) (by simp)
      simp [hrest, hT1]
    · have hstep : process_chunk cfg s c false =
          ({ s with speechFrames := s.speechFrames ++ [c],
                    silenceCount := s.silenceCount + 1 }, none) := by
        unfold process_chunk
        simp [hc, hs, hfin]
      simp only [process_audio]
      rw [hstep]
      have hrec := ih ({ s with speechFrames := s.speechFrames ++ [c],
                                silenceCount := s.silenceCount + 1 })
        (fun p hp => hall p (by simp [hp])) (by simp [hc]) (by simp [hs])
        (by simp; omega) (by simp at hle ⊢; omega) (by simp; omega)
      simp only [Option.toList_none, List.nil_append]
      rw [hrec]
      have hsplit : cfg.silenceThreshold - s.silenceCount =
          (cfg.silenceThreshold - (s.silenceCount + 1)) + 1 := by omega
      simp only [AudioState.mk.injEq]
      rw [hsplit, List.take_succ_cons]
      simp

/-- C3: (1) an utterance with fewer than `min_speech_chunks` frames is
never handed to transcription, over any input sequence and start state;
(2) from a Speaking state with silence run 0, an utterance that will have
at least `min_speech_chunks` frames once the trailing silence is included
and that is followed by at least `silence_threshold_chunks` consecutive
silence-classified frames is handed to transcription exactly once (the
output of the run is the one-element list holding it, the buffer being
extended by the first `silence_threshold_chunks` silence frames, which the
code appends to the utterance before finalizing). -/
theorem c3_min_length_enforcement (cfg : Config) :
    (∀ (s : AudioState) (inputs : List (Nat × Bool)) (u : List Nat),
        u ∈ (process_audio cfg s inputs).2 → cfg.minSpeechChunks ≤ u.length) ∧
    (∀ (s : AudioState) (sil : List (Nat × Bool)),
        (∀ p ∈ sil, p.2 = false) →
        s.calibrating = false → s.isSpeaking = true → s.silenceCount = 0 →
        0 < cfg.silenceThreshold →
        cfg.silenceThreshold ≤ sil.length →
        cfg.minSpeechChunks ≤ s.speechFrames.length + cfg.silenceThreshold →
        (process_audio cfg s sil).2 =
          [s.speechFrames ++ (sil.take cfg.silenceThreshold).map Prod.fst]) := by
  constructor
  · intro s inputs u hu
    exact process_audio_outputs_ge cfg inputs s u hu
  · intro s sil hall hc hs h0 hpos hlen hmin
    have h := speaking_silence_run cfg sil s hall hc hs (by omega) (by omega) (by omega)
    simpa [h0] using h

/-- Witness for C3: a Speaking segmenter holding 13 buffered frames with
silence run 0, fed 30 silence-classified frames under the default
configuration, hands exactly one utterance of 43 ≥ 10 frames to
transcription. -/
theorem c3_min_length_enforcement_witness :
    (process_audio defaultSegConfig
        ⟨false, 66, [], 1/100, List.range 13, 0, 12, true, []⟩
        ((List.range 30).map (fun i => (100 + i, false)))).2 =
      [List.range 13 ++
        ((((List.range 30).map (fun i => (100 + i, false))).take 30).map Prod.fst)] ∧
    defaultSegConfig.minSpeechChunks ≤
      (List.range 13 ++
        ((((List.range 30).map (fun i => (100 + i, false))).take 30).map
          Prod.fst)).length := by
  have h2 := (c3_min_length_enforcement defaultSegConfig).2
    ⟨false, 66, [], 1/100, List.range 13, 0, 12, true, []⟩
    ((List.range 30).map (fun i => (100 + i, false)))
    (by decide) rfl rfl rfl (by decide) (by decide) (by decide)
  refine ⟨h2, ?_⟩
  exact (c3_min_length_enforcement defaultSegConfig).1 _ _ _
    (by rw [h2]; exact List.mem_singleton_self _)

end VibeKeyboard
